import Mathlib

/-!
# Verification of the Claudable Provider Orchestration Core

Shallow embedding, in Lean 4, of the provider-orchestration core of the
Claudable repository (`apps/api/app/services/cli/`): the unified CLI manager
(`manager.py`), the shared adapter utilities (`base.py`), and the Cursor,
Codex, Qwen and Gemini adapters.  Python functions are translated into pure
Lean functions; subprocess interaction is modelled by quantifying over the
wire events the provider can send; the per-project session column is
modelled as an explicit state value.  Server-assigned fields that no code
path inspects (uuid ids, timestamps, project/conversation stamping) are
omitted from the event model.
-/

namespace Claudable

/-! ## Python string primitives

Models of the Python `str` operations used by the orchestration core.
They are defined on the underlying character lists so that all proofs can
evaluate them by kernel reduction.  `str.strip()` and `str.lower()` are
modelled on ASCII (the tool-mapping keys and all wire tags are ASCII).
-/

/-- Characters removed by Python `str.strip()` (ASCII whitespace). -/
def isPySpace (c : Char) : Bool :=
  c == ' ' || c == '\t' || c == '\n' || c == '\x0d' || c == '\x0b' || c == '\x0c'

/-- Python `s.strip()`. -/
def pyStrip (s : String) : String :=
  String.mk (((s.data.dropWhile isPySpace).reverse.dropWhile isPySpace).reverse)

/-- Python `s.lower()` (ASCII). -/
def pyLower (s : String) : String :=
  String.mk (s.data.map Char.toLower)

/-- Python `s.replace(" ", "")`. -/
def removeSpaces (s : String) : String :=
  String.mk (s.data.filter (fun c => c != ' '))

/-- Python truthiness-based `a or b` for an optional string (`None` and `""`
are falsy). -/
def pyOr (a : Option String) (b : String) : String :=
  match a with
  | some s => if s = "" then b else s
  | none => b

/-- Python truthiness-based `a or b` on two optional strings, returning the
first truthy value. -/
def pyOrOpt (a b : Option String) : Option String :=
  match a with
  | some s => if s = "" then b else some s
  | none => b

/-- First truthy value of a chain of `or`-ed optional strings. -/
def firstTruthy (l : List (Option String)) : Option String :=
  l.foldr (fun a acc => pyOrOpt a acc) none

/-! ## Tool-name normalizer (`base.py`, `BaseCLI._normalize_tool_name`) -/

/-- The `tool_mapping` dictionary of `BaseCLI._normalize_tool_name`,
reproduced entry by entry in source order. -/
def toolMapping : List (String × String) :=
  [("read_file", "Read"),
   ("read", "Read"),
   ("write_file", "Write"),
   ("write", "Write"),
   ("edit_file", "Edit"),
   ("replace", "Edit"),
   ("edit", "Edit"),
   ("delete", "Delete"),
   ("readfile", "Read"),
   ("readfolder", "LS"),
   ("readmanyfiles", "Read"),
   ("writefile", "Write"),
   ("findfiles", "Glob"),
   ("savememory", "SaveMemory"),
   ("save memory", "SaveMemory"),
   ("searchtext", "Grep"),
   ("shell", "Bash"),
   ("run_terminal_command", "Bash"),
   ("search_file_content", "Grep"),
   ("codebase_search", "Grep"),
   ("grep", "Grep"),
   ("find_files", "Glob"),
   ("glob", "Glob"),
   ("list_directory", "LS"),
   ("list_dir", "LS"),
   ("ls", "LS"),
   ("semSearch", "SemSearch"),
   ("google_web_search", "WebSearch"),
   ("web_search", "WebSearch"),
   ("googlesearch", "WebSearch"),
   ("web_fetch", "WebFetch"),
   ("fetch", "WebFetch"),
   ("save_memory", "SaveMemory"),
   ("exec_command", "Bash"),
   ("apply_patch", "Edit"),
   ("mcp_tool_call", "MCPTool"),
   ("search", "Grep")]

/-- `BaseCLI._normalize_tool_name`:
`key = tool_name.strip()`, `key_lower = key.replace(" ", "").lower()`,
`return tool_mapping.get(tool_name, tool_mapping.get(key_lower, key))`. -/
def normalizeToolName (toolName : String) : String :=
  let key := pyStrip toolName
  let keyLower := pyLower (removeSpaces key)
  match toolMapping.lookup toolName with
  | some v => v
  | none =>
    match toolMapping.lookup keyLower with
    | some v => v
    | none => key

/-! ## Event model

The `Message` rows produced by the adapters (`app/models/messages.py`),
restricted to the fields the orchestration core reads.  `metadata_json` is a
Python dict; we model the recognized keys as a record.  The keys
`original_event.type`, `original_event.is_error` and `original_event.subtype`
are the only parts of the nested `original_event` dict that any code path
reads (`UnifiedCLIManager._execute_with_cli`), so they are flattened into
the record; `origType = none` models an absent `original_event`.  A `none`
metadata models both `metadata_json = None` and the empty dict (they behave
identically in every read the core performs, all of which go through a
truthiness test first). -/

structure Meta where
  cli_type : Option String := none
  event_type : Option String := none
  hidden_from_ui : Bool := false
  origType : Option String := none
  origIsError : Bool := false
  origSubtype : String := ""
  tool_name : Option String := none
  tool_input : List (String × String) := []
  parse_error : Bool := false
  raw_output : Option String := none
  changes_made : Bool := false
  duration_ms : Option Nat := none
  model : Option String := none
  deriving Repr, DecidableEq

/-- A normalized streamed event (`Message` row). -/
structure Msg where
  role : String
  message_type : String
  content : String
  metadata_json : Option Meta := none
  session_id : Option String := none
  deriving Repr, DecidableEq

/-- `message.metadata_json and message.metadata_json.get("hidden_from_ui", False)`. -/
def msgHidden (m : Msg) : Bool :=
  match m.metadata_json with
  | some md => md.hidden_from_ui
  | none => false

/-- The manager's result-event detection:
`event_type == "result" or original_event.get("type") == "result"`. -/
def resultMarked (m : Msg) : Bool :=
  match m.metadata_json with
  | some md => md.event_type == some "result" || md.origType == some "result"
  | none => false

/-- Error indication of a result event:
`is_error or subtype == "error"` on the `original_event` dict. -/
def msgErrInd (m : Msg) : Bool :=
  match m.metadata_json with
  | some md => md.origIsError || md.origSubtype == "error"
  | none => false

/-- An event that sets the manager's `has_error` flag: either
`message_type == "error"`, or a result-marked event whose original event
carries an error indication. -/
def msgErrorish (m : Msg) : Bool :=
  m.message_type == "error" || (resultMarked m && msgErrInd m)

/-! ## Orchestration manager (`manager.py`, `UnifiedCLIManager`) -/

/-- Provider key (`CLIType`). -/
inductive Provider
  | claude
  | cursor
  | codex
  | qwen
  | gemini
  deriving Repr, DecidableEq

def Provider.value : Provider → String
  | .claude => "claude"
  | .cursor => "cursor"
  | .codex => "codex"
  | .qwen => "qwen"
  | .gemini => "gemini"

/-- Loop state of `UnifiedCLIManager._execute_with_cli`: the `has_error`,
`result_success` and `has_changes` flags and the length of
`messages_collected`. -/
structure ManagerAcc where
  hasError : Bool := false
  resultSuccess : Option Bool := none
  hasChanges : Bool := false
  count : Nat := 0
  deriving Repr, DecidableEq

/-- One iteration of the `async for message in cli.execute_with_streaming(...)`
loop in `UnifiedCLIManager._execute_with_cli`, restricted to the state it
mutates (persistence and broadcasting are modelled separately by
`managerPersisted` / `managerBroadcast`). -/
def managerStep (acc : ManagerAcc) (m : Msg) : ManagerAcc :=
  let a1 := if m.message_type == "error" then { acc with hasError := true } else acc
  let a2 :=
    match m.metadata_json with
    | none => a1
    | some md =>
      if md.event_type == some "result" || md.origType == some "result" then
        if md.origIsError || md.origSubtype == "error" then
          { a1 with hasError := true, resultSuccess := some false }
        else if md.origSubtype == "success" then
          { a1 with resultSuccess := some true }
        else if !md.origIsError then
          { a1 with resultSuccess := some true }
        else a1
      else a1
  let a3 :=
    match m.metadata_json with
    | some md => if md.changes_made then { a2 with hasChanges := true } else a2
    | none => a2
  { a3 with count := a3.count + 1 }

def managerFold (stream : List Msg) : ManagerAcc :=
  stream.foldl managerStep {}

/-- Final success determination of `_execute_with_cli`: for Cursor use
`result_success` when a result event was seen, otherwise `not has_error`. -/
def managerSuccess (p : Provider) (stream : List Msg) : Bool :=
  let acc := managerFold stream
  match p, acc.resultSuccess with
  | .cursor, some v => v
  | _, _ => !acc.hasError

/-- The dict returned by `_execute_with_cli`. -/
structure TurnOutcome where
  success : Bool
  cli_used : String
  has_changes : Bool
  messages_count : Nat
  error : Option String
  deriving Repr, DecidableEq

def managerOutcome (p : Provider) (stream : List Msg) : TurnOutcome :=
  let acc := managerFold stream
  let success := managerSuccess p stream
  { success := success
    cli_used := p.value
    has_changes := acc.hasChanges
    messages_count := acc.count
    error := if success then none else some "Execution failed" }

/-- Events persisted through the store: `self.db.add(message)`/`commit` runs
unconditionally for every streamed event. -/
def managerPersisted (stream : List Msg) : List Msg := stream

/-- Events forwarded to the WebSocket broadcaster: only those for which
`should_hide` is falsy. -/
def managerBroadcast (stream : List Msg) : List Msg :=
  stream.filter (fun m => !msgHidden m)

/-! ## Tool summary renderer (`base.py`, `BaseCLI._create_tool_summary`)

`tool_input` is a Python dict whose values are strings, except for the
`changes` entry of `apply_patch`, which is a dict mapping file paths to
change dicts; we model it as a record with a string-valued field list and
the `changes` mapping.  `get_display_path` strips the runtime project-root
prefix from absolute paths; in this embedding it is modelled by its
fall-through behaviour (return the path unchanged), which is what it does
whenever the path does not live under the server's project root. -/

/-- A value of the `changes` dict of `apply_patch`: a dict with an `add`,
`delete` or `update` key (`update` optionally carrying `move_path`), or any
other shape (rendered as Edit). -/
inductive PatchChange
  | add
  | del
  | update (movePath : Option String)
  | otherChange
  deriving Repr, DecidableEq

structure ToolInput where
  fields : List (String × String) := []
  changes : List (String × PatchChange) := []
  deriving Repr, DecidableEq

def tiGet (ti : ToolInput) (k : String) : Option String :=
  ti.fields.lookup k

/-- Split a character list at every occurrence of a single character. -/
def splitChar (c : Char) : List Char → List (List Char)
  | [] => [[]]
  | x :: rest =>
    if x = c then [] :: splitChar c rest
    else
      match splitChar c rest with
      | s :: ss => (x :: s) :: ss
      | [] => [[x]]

def splitSlash (s : String) : List String :=
  (splitChar '/' s.data).map String.mk

/-- Python `path.split("/")[-1]`. -/
def lastComp (p : String) : String :=
  ((splitSlash p).reverse).headD p

/-- `"…/" + "/".join(display_path.split("/")[-2:])` when longer than 40. -/
def truncPath40 (p : String) : String :=
  if p.length > 40 then "…/" ++ String.intercalate "/" (((splitSlash p).reverse.take 2).reverse)
  else p

/-- `command[:40] + "..."` when longer than 40. -/
def truncText40 (s : String) : String :=
  if s.length > 40 then String.mk (s.data.take 40) ++ "..." else s

/-- `display_path[-37:]` (used by the LS branch). -/
def lastChars37 (s : String) : String :=
  String.mk ((s.data.reverse.take 37).reverse)

/-- Split a character list at every occurrence of `"//"`. -/
def splitDblSlash : List Char → List (List Char)
  | [] => [[]]
  | '/' :: '/' :: rest => [] :: splitDblSlash rest
  | c :: rest =>
    match splitDblSlash rest with
    | s :: ss => (c :: s) :: ss
    | [] => [[c]]

def hasDblSlash : List Char → Bool
  | [] => false
  | '/' :: '/' :: _ => true
  | _ :: rest => hasDblSlash rest

/-- `url.split("//")[-1].split("/")[0] if "//" in url else url.split("/")[0]`. -/
def urlDomain (url : String) : String :=
  if hasDblSlash url.data then
    String.mk (((splitDblSlash url.data).reverse.headD []).takeWhile (fun c => c ≠ '/'))
  else
    String.mk (url.data.takeWhile (fun c => c ≠ '/'))

/-- Rendering of one `apply_patch` change entry. -/
def patchChangeSummary (filename : String) : PatchChange → String
  | .add => "**Write** `" ++ filename ++ "`"
  | .del => "**Delete** `" ++ filename ++ "`"
  | .update movePath =>
    match movePath with
    | some mv =>
      if mv ≠ "" then "**Rename** `" ++ filename ++ "` → `" ++ lastComp mv ++ "`"
      else "**Edit** `" ++ filename ++ "`"
    | none => "**Edit** `" ++ filename ++ "`"
  | .otherChange => "**Edit** `" ++ filename ++ "`"

/-- `BaseCLI._create_tool_summary`, branch for `apply_patch` (handled before
normalization). -/
def applyPatchSummary (changes : List (String × PatchChange)) : String :=
  match changes with
  | [] => "**ApplyPatch** `files`"
  | [(path, c)] => patchChangeSummary (lastComp path) c
  | _ =>
    let bullets := (changes.take 3).map (fun pc => "• " ++ patchChangeSummary (lastComp pc.1) pc.2)
    let s := String.intercalate "\n" bullets
    if changes.length > 3 then s ++ "\n• ... +" ++ toString (changes.length - 3) ++ " more files"
    else s

/-- `BaseCLI._create_tool_summary`. -/
def createToolSummary (toolName : String) (ti : ToolInput) : String :=
  if toolName = "apply_patch" then applyPatchSummary ti.changes
  else
    let n := normalizeToolName toolName
    if n = "Edit" then
      match firstTruthy [tiGet ti "file_path", tiGet ti "path", tiGet ti "file"] with
      | some p => "**Edit** `" ++ truncPath40 p ++ "`"
      | none => "**Edit** `file`"
    else if n = "Read" then
      match firstTruthy [tiGet ti "file_path", tiGet ti "path", tiGet ti "file"] with
      | some p => "**Read** `" ++ truncPath40 p ++ "`"
      | none => "**Read** `file`"
    else if n = "Bash" then
      match firstTruthy [tiGet ti "command", tiGet ti "cmd", tiGet ti "script"] with
      | some c => "**Bash** `" ++ truncText40 c ++ "`"
      | none => "**Bash** `command`"
    else if n = "TodoWrite" then "`Planning for next moves...`"
    else if n = "SaveMemory" then
      match firstTruthy [tiGet ti "fact"] with
      | some f => "**SaveMemory** `" ++ truncText40 f ++ "`"
      | none => "**SaveMemory** `storing information`"
    else if n = "Grep" then
      match firstTruthy [tiGet ti "pattern", tiGet ti "query", tiGet ti "search"] with
      | some pat =>
        match firstTruthy [tiGet ti "path", tiGet ti "file", tiGet ti "directory"] with
        | some p => "**Search** `" ++ pat ++ "` in `" ++ p ++ "`"
        | none => "**Search** `" ++ pat ++ "`"
      | none => "**Search** `pattern`"
    else if n = "Glob" then
      if toolName = "find_files" then
        match firstTruthy [tiGet ti "name"] with
        | some name => "**Glob** `" ++ name ++ "`"
        | none => "**Glob** `finding files`"
      else
        match firstTruthy [tiGet ti "pattern", tiGet ti "globPattern"] with
        | some pat => "**Glob** `" ++ pat ++ "`"
        | none => "**Glob** `pattern`"
    else if n = "Write" then
      match firstTruthy [tiGet ti "file_path", tiGet ti "path", tiGet ti "file"] with
      | some p => "**Write** `" ++ truncPath40 p ++ "`"
      | none => "**Write** `file`"
    else if n = "MultiEdit" then
      match firstTruthy [tiGet ti "file_path", tiGet ti "path", tiGet ti "file"] with
      | some p => "🔧 **MultiEdit** `" ++ truncPath40 p ++ "`"
      | none => "🔧 **MultiEdit** `file`"
    else if n = "LS" then
      match firstTruthy [tiGet ti "path", tiGet ti "directory", tiGet ti "dir"] with
      | some p => "📁 **LS** `" ++ (if p.length > 40 then "…/" ++ lastChars37 p else p) ++ "`"
      | none => "📁 **LS** `directory`"
    else if n = "WebFetch" then
      match firstTruthy [tiGet ti "url"] with
      | some url => "**WebFetch** [" ++ urlDomain url ++ "](" ++ url ++ ")"
      | none => "**WebFetch** `url`"
    else if n = "WebSearch" then
      match firstTruthy [tiGet ti "query"] with
      | some q => "**WebSearch** `" ++ truncText40 q ++ "`"
      | none => "**WebSearch** `query`"
    else if n = "Task" then
      match firstTruthy [tiGet ti "description"], firstTruthy [tiGet ti "subagent_type"] with
      | some d, some st =>
        "🤖 **Task** `" ++ st ++ "`\n> " ++ String.mk (d.data.take 50) ++ (if d.length > 50 then "..." else "")
      | some d, none => "🤖 **Task** `" ++ truncText40 d ++ "`"
      | none, _ => "🤖 **Task** `subtask`"
    else if n = "ExitPlanMode" then "✅ **ExitPlanMode** `planning complete`"
    else if n = "NotebookEdit" then
      match firstTruthy [tiGet ti "notebook_path"] with
      | some p => "📓 **NotebookEdit** `" ++ lastComp p ++ "`"
      | none => "📓 **NotebookEdit** `notebook`"
    else if n = "MCPTool" || toolName = "mcp_tool_call" then
      match firstTruthy [tiGet ti "server"], firstTruthy [tiGet ti "tool"] with
      | some server, some tool => "🔧 **MCP** `" ++ server ++ "." ++ tool ++ "`"
      | _, _ => "🔧 **MCP** `tool call`"
    else if toolName = "exec_command" then
      match firstTruthy [tiGet ti "command"] with
      | some c => "⚡ **Exec** `" ++ truncText40 c ++ "`"
      | none => "⚡ **Exec** `command`"
    else "**" ++ toolName ++ "** `executing...`"

/-! ## ACP adapters (`qwen_cli.py` / `gemini_cli.py`)

The shared subprocess speaks JSON-RPC; the adapter consumes `session/update`
notifications for the current session while an async `session/prompt`
request is in flight.  A turn is modelled as a tree of prompt attempts: each
attempt carries the updates delivered (and drained) before the prompt
request resolves, and its resolution: success, a non-session error, or a
"Session not found" error followed by the adapter's `session/new` recovery
result (a fresh session id together with the next attempt, no session id in
the response, or an exception). -/

/-- A `session/update` notification, restricted to what
`_update_to_messages` reads.  The chunk text is the resolved
`(update.get("content") or {}).get("text") or update.get("text") or ""`;
a plan entry is the resolved `e.get("title")`-or-`str(e)` value, with `""`
standing for a falsy title (which the code skips). -/
structure ToolLoc where
  path : Option String := none
  file : Option String := none
  file_path : Option String := none
  filePath : Option String := none
  uri : Option String := none
  deriving Repr, DecidableEq

structure ToolContentItem where
  path : Option String := none
  file : Option String := none
  file_path : Option String := none
  argsPath : Option String := none
  deriving Repr, DecidableEq

structure ToolUpd where
  kind : Option String := none
  toolCallId : Option String := none
  title : Option String := none
  locations : List ToolLoc := []
  content : List ToolContentItem := []
  deriving Repr, DecidableEq

inductive Update
  | messageChunk (text : String)
  | thoughtChunk (text : String)
  | toolCall (u : ToolUpd)
  | toolCallUpdate (u : ToolUpd)
  | plan (entries : List String)
  | other
  deriving Repr, DecidableEq

/-- `_extract_tool_input` (identical in `qwen_cli.py` and `gemini_cli.py`):
search `locations[0]` for a path (stripping a `file://` scheme), then the
`content` items. -/
def acpExtractToolInput (u : ToolUpd) : ToolInput :=
  let fromLoc : Option String :=
    match u.locations with
    | [] => none
    | first :: _ =>
      match firstTruthy [first.path, first.file, first.file_path, first.filePath, first.uri] with
      | some s =>
        if s.data.take 7 = "file://".data then
          let stripped := String.mk (s.data.drop 7)
          if stripped = "" then none else some stripped
        else some s
      | none => none
  let path :=
    match fromLoc with
    | some p => some p
    | none =>
      u.content.findSome? (fun c => firstTruthy [c.path, c.file, c.file_path, c.argsPath])
  match path with
  | some p => { fields := [("path", p)] }
  | none => { fields := [] }

/-- `QwenCLI._parse_tool_name`: prefer `update.kind`, else the first segment
of `toolCallId` split on `-` then `_` (unless it is an opaque `call`-ish
prefix), else `title` or `"tool"`. -/
def qwenParseToolName (u : ToolUpd) : String :=
  let fallback :=
    let rawId := pyOr u.toolCallId ""
    if rawId ≠ "" then
      let baseDash := String.mk (rawId.data.takeWhile (fun c => c ≠ '-'))
      if baseDash ≠ "" && !(["call", "tool", "toolcall"].contains (pyLower baseDash)) then baseDash
      else
        let baseUnd := String.mk (rawId.data.takeWhile (fun c => c ≠ '_'))
        if baseUnd ≠ "" && !(["call", "tool", "toolcall"].contains (pyLower baseUnd)) then baseUnd
        else pyOr u.title "tool"
    else pyOr u.title "tool"
  match u.kind with
  | some k => if pyStrip k ≠ "" then pyStrip k else fallback
  | none => fallback

/-- `GeminiCLI._parse_tool_name`: first segment of `toolCallId` before `-`,
else `title` or `kind` or `"tool"`. -/
def geminiParseToolName (u : ToolUpd) : String :=
  let rawId := pyOr u.toolCallId ""
  if rawId ≠ "" then
    let base := String.mk (rawId.data.takeWhile (fun c => c ≠ '-'))
    if base ≠ "" then base else pyOr u.title (pyOr u.kind "tool")
  else pyOr u.title (pyOr u.kind "tool")

/-- The two chunk buffers (`thought_buffer`, `text_buffer`). -/
structure Buffers where
  th : List String := []
  tx : List String := []
  deriving Repr, DecidableEq

/-- A line of the form `^call[_-][A-Za-z0-9]+.*$` (Qwen internal call ids). -/
def isCallLine : List Char → Bool
  | 'c' :: 'a' :: 'l' :: 'l' :: s :: c :: _ => (s == '_' || s == '-') && c.isAlphanum
  | _ => false

/-- `re.sub(r"(?m)^call[_-][A-Za-z0-9]+.*$\n?", "", s)`: drop every matching
line together with its trailing newline (a final matching line keeps the
newline that precedes it). -/
def dropCallSegs : List (List Char) → List Char
  | [] => []
  | [l] => if isCallLine l then [] else l
  | l :: rest => if isCallLine l then dropCallSegs rest else l ++ '\n' :: dropCallSegs rest

def stripCallLines (s : String) : String :=
  String.mk (dropCallSegs (splitChar '\n' s.data))

/-- Helper for `collapseNewlines`: `n` is the length of the newline run
read so far; a run of `n` newlines is emitted as `min n 2` newlines. -/
def collapseGo : List Char → Nat → List Char
  | [], n => List.replicate (min n 2) '\n'
  | c :: rest, n =>
    if c = '\n' then collapseGo rest (n + 1)
    else List.replicate (min n 2) '\n' ++ c :: collapseGo rest 0

/-- `re.sub(r"\n{3,}", "\n\n", s)`: every run of three or more newlines
becomes exactly two. -/
def collapseNewlines (l : List Char) : List Char :=
  collapseGo l 0

/-- `QwenCLI._compose_content`: thoughts, a blank line, then text; strip
`call_*` lines; collapse newline runs; strip. -/
def qwenCompose (th tx : List String) : String :=
  let parts : List String :=
    (if th.isEmpty then [] else [String.join th] ++ (if tx.isEmpty then [] else ["\n\n"])) ++
    (if tx.isEmpty then [] else [String.join tx])
  pyStrip (String.mk (collapseNewlines (stripCallLines (String.join parts)).data))

/-- `GeminiCLI._compose_content`: a `<thinking>` block when the stripped
joined thoughts are nonempty, followed by the joined text. -/
def geminiCompose (th tx : List String) : String :=
  let thinkingParts : List String :=
    if th.isEmpty then []
    else
      let thinking := pyStrip (String.join th)
      if thinking = "" then [] else ["<thinking>\n" ++ thinking ++ "\n</thinking>\n"]
  let textParts : List String := if tx.isEmpty then [] else [String.join tx]
  String.join (thinkingParts ++ textParts)

def qwenChatMsg (sid : Option String) (content : String) : Msg :=
  { role := "assistant", message_type := "chat", content := content
    metadata_json := some { cli_type := some "qwen" }, session_id := sid }

def qwenToolMsg (sid : Option String) (summary toolName : String) (ti : ToolInput) : Msg :=
  { role := "assistant", message_type := "tool_use", content := summary
    metadata_json := some { cli_type := some "qwen", event_type := some "tool_call",
                            tool_name := some toolName, tool_input := ti.fields }
    session_id := sid }

def qwenPlanMsg (sid : Option String) (content : String) : Msg :=
  { role := "assistant", message_type := "chat", content := content
    metadata_json := some { cli_type := some "qwen", event_type := some "plan" }
    session_id := sid }

/-- Rendering of a plan notification: up to six bullet lines of entry
titles, or `"Planning…"`. -/
def planContent (entries : List String) : String :=
  let lines := ((entries.take 6).filter (fun t => t ≠ "")).map (fun t => "• " ++ t)
  if lines.isEmpty then "Planning…" else String.intercalate "\n" lines

/-- `QwenCLI._update_to_messages`: chunks accumulate (never flushed here);
`tool_call_update` hidden; opaque/`executing...` tool calls suppressed;
visible tool calls and plans flush the buffers first. -/
def qwenUpd (sid : Option String) : Update → Buffers → List Msg × Buffers
  | .messageChunk t, b => ([], { b with tx := b.tx ++ [t] })
  | .thoughtChunk t, b => ([], { b with th := b.th ++ [t] })
  | .toolCallUpdate _, b => ([], b)
  | .toolCall u, b =>
    let toolName := qwenParseToolName u
    let toolInput := acpExtractToolInput u
    let summary := createToolSummary toolName toolInput
    let tn := pyLower toolName
    let suppressed := tn == "call" || tn == "tool" || tn == "toolcall"
      || tn.startsWith "call_" || tn.startsWith "call-"
    if suppressed || (pyStrip summary).endsWith "`executing...`" then ([], b)
    else
      let flush := if b.th.isEmpty && b.tx.isEmpty then [] else [qwenChatMsg sid (qwenCompose b.th b.tx)]
      (flush ++ [qwenToolMsg sid summary toolName toolInput], {})
  | .plan entries, b =>
    let flush := if b.th.isEmpty && b.tx.isEmpty then [] else [qwenChatMsg sid (qwenCompose b.th b.tx)]
    (flush ++ [qwenPlanMsg sid (planContent entries)], {})
  | .other, b => ([], b)

def geminiChatMsg (sid : Option String) (content : String) : Msg :=
  { role := "assistant", message_type := "chat", content := content
    metadata_json := some { cli_type := some "gemini" }, session_id := sid }

def geminiThinkingMsg (sid : Option String) (content : String) : Msg :=
  { role := "assistant", message_type := "chat", content := content
    metadata_json := some { cli_type := some "gemini", event_type := some "thinking" }
    session_id := sid }

def geminiToolMsg (sid : Option String) (kind summary toolName : String) (ti : ToolInput) : Msg :=
  { role := "assistant", message_type := "tool_use", content := summary
    metadata_json := some { cli_type := some "gemini", event_type := some kind,
                            tool_name := some toolName, tool_input := ti.fields }
    session_id := sid }

def geminiPlanMsg (sid : Option String) (content : String) : Msg :=
  { role := "assistant", message_type := "chat", content := content
    metadata_json := some { cli_type := some "gemini", event_type := some "plan" }
    session_id := sid }

/-- Tool-call branch of `GeminiCLI._update_to_messages`: `Write` renders
only on `tool_call_update`, every other tool only on `tool_call`. -/
def geminiTool (sid : Option String) (kind : String) (u : ToolUpd) (b : Buffers) :
    List Msg × Buffers :=
  let toolName := geminiParseToolName u
  let toolInput := acpExtractToolInput u
  let normalized := normalizeToolName toolName
  let shouldRender := (normalized == "Write" && kind == "tool_call_update")
    || (normalized != "Write" && kind == "tool_call")
  if !shouldRender then ([], b)
  else
    let summary := createToolSummary toolName toolInput
    let flush := if b.th.isEmpty && b.tx.isEmpty then [] else [geminiChatMsg sid (geminiCompose b.th b.tx)]
    (flush ++ [geminiToolMsg sid kind summary toolName toolInput], {})

/-- `GeminiCLI._update_to_messages`: the first `agent_message_chunk` after
one or more thought chunks flushes the thought buffer immediately as a
`<thinking>` chat event. -/
def geminiUpd (sid : Option String) : Update → Buffers → List Msg × Buffers
  | .thoughtChunk t, b => ([], { b with th := b.th ++ [t] })
  | .messageChunk t, b =>
    if !b.th.isEmpty && b.tx.isEmpty then
      ([geminiThinkingMsg sid (geminiCompose b.th [])], { th := [], tx := [t] })
    else ([], { b with tx := b.tx ++ [t] })
  | .toolCall u, b => geminiTool sid "tool_call" u b
  | .toolCallUpdate u, b => geminiTool sid "tool_call_update" u b
  | .plan entries, b =>
    let flush := if b.th.isEmpty && b.tx.isEmpty then [] else [geminiChatMsg sid (geminiCompose b.th b.tx)]
    (flush ++ [geminiPlanMsg sid (planContent entries)], {})
  | .other, b => ([], b)

/-- Fold a list of updates through an update handler, collecting the
produced messages and threading the buffers. -/
def processUpdates (f : Update → Buffers → List Msg × Buffers) :
    List Update → Buffers → List Msg × Buffers
  | [], b => ([], b)
  | u :: rest, b =>
    let p := f u b
    let r := processUpdates f rest p.2
    (p.1 ++ r.1, r.2)

/-- Terminal resolution of a `session/prompt` request: success, an error
other than "Session not found", a "Session not found" error after which
`session/new` returned no `sessionId` (the code falls through silently), or
a "Session not found" error whose `session/new` recovery raised. -/
inductive ACPTerm
  | ok
  | errOther (msg : String)
  | snfNoSession
  | snfRaise (msg : String)
  deriving Repr, DecidableEq

/-- The prompt phase of an ACP turn, as a tree of attempts.  `final us t`
is an attempt that consumed updates `us` and resolved with terminal
outcome `t`; `retry us newId next` is an attempt that failed with "Session
not found" after consuming `us`, upon which `session/new` returned
`newId` and the adapter re-entered the loop (`continue`) with the retried
prompt `next`. -/
inductive ACPRun
  | final (updates : List Update) (t : ACPTerm)
  | retry (updates : List Update) (newId : String) (next : ACPRun)

/-- Result of the adapter's streaming loop: yielded messages, final buffer
contents, and the session ids stored through `set_session_id` during
recovery. -/
structure LoopOut where
  msgs : List Msg
  bufs : Buffers
  sets : List String

def qwenErrorMsg (sid : Option String) (content : String) : Msg :=
  { role := "assistant", message_type := "error", content := content
    metadata_json := some { cli_type := some "qwen" }, session_id := sid }

def qwenResultMsg (sid : Option String) : Msg :=
  { role := "system", message_type := "result", content := "Qwen turn completed"
    metadata_json := some { cli_type := some "qwen", hidden_from_ui := true }
    session_id := sid }

/-- The `while True` wait loop of `QwenCLI.execute_with_streaming`: process
updates; on prompt resolution, a "Session not found" error triggers
`session/new` and, when a session id is returned, a silent retry
(`continue`) carrying the unflushed buffers; any other error (or a failed
recovery) yields one error event. -/
def qwenLoop (sid : Option String) : ACPRun → Buffers → LoopOut
  | .final us t, b =>
    let p := processUpdates (qwenUpd sid) us b
    match t with
    | .ok => { msgs := p.1, bufs := p.2, sets := [] }
    | .errOther m =>
      { msgs := p.1 ++ [qwenErrorMsg sid ("Qwen prompt error: " ++ m)], bufs := p.2, sets := [] }
    | .snfNoSession => { msgs := p.1, bufs := p.2, sets := [] }
    | .snfRaise m =>
      { msgs := p.1 ++ [qwenErrorMsg sid ("Qwen session recovery failed: " ++ m)], bufs := p.2, sets := [] }
  | .retry us newId next, b =>
    let p := processUpdates (qwenUpd sid) us b
    let r := qwenLoop sid next p.2
    { msgs := p.1 ++ r.msgs, bufs := r.bufs, sets := newId :: r.sets }

/-- A full Qwen prompt phase: the wait loop, the final buffer flush, and the
trailing hidden `result` event. -/
def qwenTurn (sid : Option String) (run : ACPRun) : List Msg × List String :=
  let r := qwenLoop sid run {}
  let flush := if r.bufs.th.isEmpty && r.bufs.tx.isEmpty then []
    else [qwenChatMsg sid (qwenCompose r.bufs.th r.bufs.tx)]
  (r.msgs ++ flush ++ [qwenResultMsg sid], r.sets)

/-- Session-setup phase of a Qwen turn: either a session is available and
the prompt phase runs, or `session/new`-plus-`authenticate` failed and the
turn is a single error event (`return` before any prompt). -/
inductive QSetup
  | sessionReady (run : ACPRun)
  | setupFail (msg : String)

def qwenTurnFull (sid : Option String) : QSetup → List Msg × List String
  | .sessionReady run => qwenTurn sid run
  | .setupFail m => ([qwenErrorMsg sid ("Qwen authentication/session failed: " ++ m)], [])

/-! ## Cursor adapter (`cursor_agent.py`)

The subprocess output is NDJSON.  A stdout line is modelled after decoding
and stripping: blank lines are skipped by the source before any handling,
so the input is a list of nonempty stripped lines, each either failing JSON
parsing (`malformed`, carrying the stripped line text) or parsing to a wire
event.  The wire event is modelled by the fields
`CursorAgentCLI._handle_cursor_stream_json` and the streaming loop read. -/

structure CPart where
  type : Option String := none
  text : String := ""
  deriving Repr, DecidableEq

structure CMessage where
  content : List CPart := []
  sessionId : Option String := none
  chatId : Option String := none
  session_id : Option String := none
  chat_id : Option String := none
  deriving Repr, DecidableEq

/-- One tool-call entry: `tool_call_data[name]`.  The `result` rendering
(`json.dumps(result["success"])` / `json.dumps(result["error"])`) is
modelled by the pre-rendered strings. -/
structure CToolData where
  args : List (String × String) := []
  resultSuccess : Option String := none
  resultError : Option String := none
  deriving Repr, DecidableEq

structure CEvent where
  type : Option String := none
  model : Option String := none
  session_id : Option String := none
  sessionId : Option String := none
  chatId : Option String := none
  chat_id : Option String := none
  threadId : Option String := none
  thread_id : Option String := none
  message : Option CMessage := none
  subtype : Option String := none
  tool_call : List (String × CToolData) := []
  duration_ms : Nat := 0
  result : Option String := none
  is_error : Bool := false
  deriving Repr, DecidableEq

inductive CLine
  | malformed (raw : String)
  | parsed (e : CEvent)
  deriving Repr, DecidableEq

/-- Metadata fields taken from `"original_event": event`. -/
def cursorOrigMeta (e : CEvent) (md : Meta) : Meta :=
  { md with origType := e.type, origIsError := e.is_error, origSubtype := pyOr e.subtype "" }

/-- `CursorAgentCLI._handle_cursor_stream_json`.  The `tool_call completed`
branch stores the raw event under the metadata key `original_format`
(not `original_event`), so its `orig*` fields stay absent. -/
def handleCursorStreamJson (sid : Option String) (e : CEvent) : Option Msg :=
  if e.type = some "system" then
    let md := cursorOrigMeta e { cli_type := some "cursor", event_type := some "system", hidden_from_ui := true }
    some { role := "system", message_type := "system"
           content := "🔧 Cursor Agent initialized (Model: " ++ (e.model.getD "unknown") ++ ")"
           metadata_json := some md
           session_id := sid }
  else if e.type = some "user" then none
  else if e.type = some "assistant" then
    let parts := match e.message with | some m => m.content | none => []
    let content := String.join ((parts.filter (fun p => p.type == some "text")).map (fun p => p.text))
    if content ≠ "" then
      let md := cursorOrigMeta e { cli_type := some "cursor", event_type := some "assistant" }
      some { role := "assistant", message_type := "chat", content := content
             metadata_json := some md
             session_id := sid }
    else none
  else if e.type = some "tool_call" then
    match e.tool_call with
    | [] => none
    | (rawName, td) :: _ =>
      if rawName = "" then none
      else
        let toolName := rawName.replace "ToolCall" ""
        if e.subtype = some "started" then
          let summary := createToolSummary toolName { fields := td.args }
          let md := cursorOrigMeta e { cli_type := some "cursor", event_type := some "tool_call_started", tool_name := some toolName, tool_input := td.args }
          some { role := "assistant", message_type := "chat", content := summary
                 metadata_json := some md
                 session_id := sid }
        else if e.subtype = some "completed" then
          let content := match td.resultSuccess with
            | some v => v
            | none => match td.resultError with | some v => v | none => ""
          let md : Meta := { cli_type := some "cursor", tool_name := some toolName, hidden_from_ui := true }
          some { role := "system", message_type := "tool_result", content := content
                 metadata_json := some md
                 session_id := sid }
        else none
  else if e.type = some "result" then
    let resultText := e.result.getD ""
    if resultText ≠ "" then
      let md := cursorOrigMeta e { cli_type := some "cursor", event_type := some "result", duration_ms := some e.duration_ms, hidden_from_ui := true }
      some { role := "system", message_type := "system"
             content := "Execution completed in " ++ toString e.duration_ms ++ "ms. Final result: " ++ resultText
             metadata_json := some md
             session_id := sid }
    else none
  else none

/-- The session-id fields searched by the generic extraction
(`sessionId|chatId|session_id|chat_id|threadId|thread_id`, then the same
fields inside `message`). -/
def cursorPotentialSession (e : CEvent) : Option String :=
  match firstTruthy [e.sessionId, e.chatId, e.session_id, e.chat_id, e.threadId, e.thread_id] with
  | some s => some s
  | none =>
    match e.message with
    | some m => firstTruthy [m.sessionId, m.chatId, m.session_id, m.chat_id]
    | none => none

/-- Loop state of `CursorAgentCLI.execute_with_streaming`. -/
structure CursorSt where
  cursorSessionId : Option String := none
  buffer : String := ""
  deriving Repr, DecidableEq

def cursorAggMsg (sid : Option String) (content : String) : Msg :=
  { role := "assistant", message_type := "chat", content := content
    metadata_json := some { cli_type := some "cursor", event_type := some "assistant_aggregated" }
    session_id := sid }

def cursorParseErrorMsg (sid : Option String) (raw : String) : Msg :=
  { role := "assistant", message_type := "chat", content := raw
    metadata_json := some { cli_type := some "cursor", raw_output := some raw, parse_error := true }
    session_id := sid }

def cursorFlushBuf (sid : Option String) (buf : String) : List Msg :=
  if buf = "" then [] else [cursorAggMsg sid buf]

/-- The `async for line in process.stdout` loop of
`CursorAgentCLI.execute_with_streaming`, returning the yielded messages and
the session ids passed to `set_session_id`, in order.  `active` is
`active_session_id` (stored session or the caller's), `sid` the `session_id`
stamped on yielded messages.  A `result` event sets `result_received` (and
breaks after processing) only when no cursor session id has been captured
yet, exactly as in the source. -/
def cursorLoop (active sid : Option String) : List CLine → CursorSt → List Msg × List String
  | [], st => (cursorFlushBuf sid st.buffer, [])
  | .malformed raw :: rest, st =>
    let r := cursorLoop active sid rest st
    (cursorParseErrorMsg sid raw :: r.1, r.2)
  | .parsed e :: rest, st =>
    let step1 : CursorSt × List String × Bool :=
      if e.type = some "result" && st.cursorSessionId.isNone then
        match e.session_id with
        | some s =>
          if s ≠ "" then ({ st with cursorSessionId := some s }, [s], true)
          else (st, [], true)
        | none => (st, [], true)
      else (st, [], false)
    let st1 := step1.1
    let resultReceived := step1.2.2
    let step2 : CursorSt × List String :=
      if st1.cursorSessionId.isNone then
        match cursorPotentialSession e with
        | some p =>
          if some p ≠ active then ({ st1 with cursorSessionId := some p }, [p])
          else (st1, [])
        | none => (st1, [])
      else (st1, [])
    let st2 := step2.1
    let flushed : List Msg × CursorSt :=
      if e.type ≠ some "assistant" && st2.buffer ≠ "" then
        ([cursorAggMsg sid st2.buffer], { st2 with buffer := "" })
      else ([], st2)
    let handled : List Msg × CursorSt :=
      match handleCursorStreamJson sid e with
      | some m =>
        if m.role == "assistant" && m.message_type == "chat" then
          ([], { flushed.2 with buffer := flushed.2.buffer ++ m.content })
        else ([m], flushed.2)
      | none => ([], flushed.2)
    if resultReceived then
      (flushed.1 ++ handled.1 ++ cursorFlushBuf sid handled.2.buffer, step1.2.1 ++ step2.2)
    else
      let r := cursorLoop active sid rest handled.2
      (flushed.1 ++ handled.1 ++ r.1, step1.2.1 ++ step2.2 ++ r.2)

def cursorTurn (active sid : Option String) (lines : List CLine) : List Msg × List String :=
  cursorLoop active sid lines {}

/-! ## Codex adapter (`codex_cli.py`)

Stdout lines are modelled like Cursor lines (post-strip), with `blank`
retained because the init loop counts blank lines toward its budget.  A
parsed line carries the envelope `id` and the `msg` fields the adapter
reads. -/

structure CodexEvent where
  id : String := ""
  msgType : Option String := none
  delta : String := ""
  message : Option String := none
  command : List String := []
  changes : List (String × PatchChange) := []
  query : String := ""
  server : Option String := none
  tool : Option String := none
  session_id : Option String := none
  model : Option String := none
  errMessage : String := ""
  deriving Repr, DecidableEq

inductive CodexLine
  | blank
  | malformed
  | parsed (e : CodexEvent)
  deriving Repr, DecidableEq

/-- The session-initialization loop of `CodexCLI.execute_with_streaming`
(`while not session_ready and timeout_count < max_timeout`):
blank lines and lines that fail JSON parsing increment `timeout_count`;
parsed lines whose `msg.type` is not `session_configured` do not.  Returns
the `session_configured` event and the remaining lines, or `none` when the
loop gives up (EOF, or 100 blank/unparseable lines). -/
def codexInit (lines : List CodexLine) (count : Nat) : Option (CodexEvent × List CodexLine) :=
  if count ≥ 100 then none
  else
    match lines with
    | [] => none
    | .blank :: rest => codexInit rest (count + 1)
    | .malformed :: rest => codexInit rest (count + 1)
    | .parsed e :: rest =>
      if e.msgType = some "session_configured" then some (e, rest)
      else codexInit rest count

def codexInitMsg (sid : Option String) (cliModel : String) (e : CodexEvent) : Msg :=
  { role := "system", message_type := "system"
    content := "🚀 Codex initialized (Model: " ++ (e.model.getD cliModel) ++ ")"
    metadata_json := some { cli_type := some "codex", hidden_from_ui := true }
    session_id := sid }

def codexChatMsg (sid : Option String) (content : String) : Msg :=
  { role := "assistant", message_type := "chat", content := content
    metadata_json := some { cli_type := some "codex" }, session_id := sid }

def codexToolMsg (sid : Option String) (summary toolName : String) : Msg :=
  { role := "assistant", message_type := "tool_use", content := summary
    metadata_json := some { cli_type := some "codex", tool_name := some toolName }
    session_id := sid }

def codexErrorMsg (sid : Option String) (m : String) : Msg :=
  { role := "assistant", message_type := "error", content := "❌ Error: " ++ m
    metadata_json := some { cli_type := some "codex" }, session_id := sid }

/-- The post-init `async for line in process.stdout` loop of
`CodexCLI.execute_with_streaming`, with the message buffer threaded.
`reqId` is `current_request_id`. -/
def codexStreamLoop (reqId : String) (sid : Option String) :
    List CodexLine → String → List Msg
  | [], buffer => if buffer ≠ "" then [codexChatMsg sid buffer] else []
  | .blank :: rest, buffer => codexStreamLoop reqId sid rest buffer
  | .malformed :: rest, buffer => codexStreamLoop reqId sid rest buffer
  | .parsed e :: rest, buffer =>
    if reqId ≠ "" && e.id ≠ reqId
        && !(e.msgType = some "session_configured" || e.msgType = some "mcp_list_tools_response") then
      codexStreamLoop reqId sid rest buffer
    else if e.msgType = some "agent_message_delta" then
      codexStreamLoop reqId sid rest (buffer ++ e.delta)
    else if e.msgType = some "agent_message" then
      let buf := if buffer = "" then pyOr e.message "" else buffer
      if buf = "" then codexStreamLoop reqId sid rest ""
      else codexChatMsg sid buf :: codexStreamLoop reqId sid rest ""
    else if e.msgType = some "exec_command_begin" then
      codexToolMsg sid (createToolSummary "exec_command" { fields := [("command", String.intercalate " " e.command)] }) "Bash"
        :: codexStreamLoop reqId sid rest buffer
    else if e.msgType = some "patch_apply_begin" then
      codexToolMsg sid (createToolSummary "apply_patch" { changes := e.changes }) "Edit"
        :: codexStreamLoop reqId sid rest buffer
    else if e.msgType = some "web_search_begin" then
      codexToolMsg sid (createToolSummary "web_search" { fields := [("query", e.query)] }) "WebSearch"
        :: codexStreamLoop reqId sid rest buffer
    else if e.msgType = some "mcp_tool_call_begin" then
      codexToolMsg sid (createToolSummary "mcp_tool_call"
          { fields := [("server", (pyOr e.server "")), ("tool", (pyOr e.tool ""))] }) "MCPTool"
        :: codexStreamLoop reqId sid rest buffer
    else if e.msgType = some "task_complete" then
      if buffer ≠ "" then [codexChatMsg sid buffer] else []
    else if e.msgType = some "error" then
      codexErrorMsg sid e.errMessage :: codexStreamLoop reqId sid rest buffer
    else codexStreamLoop reqId sid rest buffer

/-- A full Codex turn over the given stdout lines: the init phase (which may
end the stream with no events at all), the hidden init event, and the
streaming phase.  Returns the messages and the session ids stored. -/
def codexTurn (sid : Option String) (cliModel reqId : String) (lines : List CodexLine) :
    List Msg × List String :=
  match codexInit lines 0 with
  | none => ([], [])
  | some (e, rest) =>
    let sets := match e.session_id with
      | some s => if s ≠ "" then [s] else []
      | none => []
    (codexInitMsg sid cliModel e :: codexStreamLoop reqId sid rest "", sets)

/-! ## Session store (`get_session_id` / `set_session_id` of the adapters)

All four adapters share the single `projects.active_cursor_session_id`
string column of one project row.  The column is modelled as either the raw
string a Cursor write put there (`raw`, a value that does not parse as a
JSON object — session handles are opaque tokens) or the JSON dump of a flat
string-to-string object maintained by the Qwen/Gemini/Codex
read-modify-write (`blob`).  Each adapter instance also keeps an in-memory
fallback map, modelled per provider for a single project.  `pyDumps`
renders the blob exactly as `json.dumps` does for escape-free strings. -/

inductive Col
  | raw (s : String)
  | blob (entries : List (String × String))
  deriving Repr, DecidableEq

/-- Python `data[k] = v` on an association list (replace in place or
append). -/
def upsert (k v : String) : List (String × String) → List (String × String)
  | [] => [(k, v)]
  | (k', v') :: rest => if k' = k then (k, v) :: rest else (k', v') :: upsert k v rest

def jsonQuote (s : String) : String := "\"" ++ s ++ "\""

def pyDumps (entries : List (String × String)) : String :=
  "\x7b" ++ String.intercalate ", " (entries.map (fun kv => jsonQuote kv.1 ++ ": " ++ jsonQuote kv.2)) ++ "\x7d"

def colString : Col → String
  | .raw s => s
  | .blob m => pyDumps m

/-- The dict the JSON-blob writers start from: parse the column, or wrap a
raw value as `{"cursor": value}`; an empty/absent column gives `{}`. -/
def colData : Option Col → List (String × String)
  | none => []
  | some (.raw s) => if s = "" then [] else [("cursor", s)]
  | some (.blob m) => m

structure SessState where
  col : Option Col := none
  memCursor : Option String := none
  memCodex : Option String := none
  memQwen : Option String := none
  memGemini : Option String := none
  deriving Repr, DecidableEq

/-- `CursorAgentCLI.set_session_id` (project row found): overwrite the
column with the raw session id and return (no in-memory write). -/
def cursorSetSession (id : String) (st : SessState) : SessState :=
  { st with col := some (.raw id) }

/-- `CursorAgentCLI.get_session_id`: return the column verbatim when
truthy, else the in-memory fallback. -/
def cursorGetSession (st : SessState) : Option String :=
  match st.col with
  | some c => if colString c ≠ "" then some (colString c) else st.memCursor
  | none => st.memCursor

/-- Blob lookup used by the Qwen/Gemini/Codex readers: a value is returned
only when the column parses to a dict containing the provider key;
otherwise fall through to the in-memory store. -/
def blobGet (key : String) (col : Option Col) (mem : Option String) : Option String :=
  match col with
  | some (.blob m) =>
    match m.lookup key with
    | some v => some v
    | none => mem
  | _ => mem

def qwenSetSession (id : String) (st : SessState) : SessState :=
  { st with col := some (.blob (upsert "qwen" id (colData st.col))), memQwen := some id }

def qwenGetSession (st : SessState) : Option String :=
  blobGet "qwen" st.col st.memQwen

def geminiSetSession (id : String) (st : SessState) : SessState :=
  { st with col := some (.blob (upsert "gemini" id (colData st.col))), memGemini := some id }

def geminiGetSession (st : SessState) : Option String :=
  blobGet "gemini" st.col st.memGemini

def codexSetSession (id : String) (st : SessState) : SessState :=
  { st with col := some (.blob (upsert "codex" id (colData st.col))), memCodex := some id }

def codexGetSession (st : SessState) : Option String :=
  blobGet "codex" st.col st.memCodex

/-- `CodexCLI.set_rollout_path` (column only; no in-memory fallback). -/
def codexSetRollout (path : String) (st : SessState) : SessState :=
  { st with col := some (.blob (upsert "codex_rollout" path (colData st.col))) }

def codexGetRollout (st : SessState) : Option String :=
  match st.col with
  | some (.blob m) => m.lookup "codex_rollout"
  | _ => none

/-! ## Specification-side definitions for the claims

The two `claimedSuccess*` functions below transcribe the specification's
success rule, for comparison against the implementation's `managerSuccess`;
they are written from the spec's words, not from the source. -/

def msgOrigSubtype (m : Msg) : String :=
  match m.metadata_json with
  | some md => md.origSubtype
  | none => ""

def msgOrigIsError (m : Msg) : Bool :=
  match m.metadata_json with
  | some md => md.origIsError
  | none => false

/-- The claimed success rule, read in the order the claim states it: when
the provider is Cursor and a result event was seen, `subtype == "success"`
gives success, then `is_error or subtype == "error"` gives failure, then
success; every other case is `no kind=error event was emitted`. -/
def claimedSuccessOrig (p : Provider) (l : List Msg) : Bool :=
  match p, l.find? (fun m => resultMarked m) with
  | .cursor, some r =>
    if msgOrigSubtype r == "success" then true
    else if msgOrigIsError r || msgOrigSubtype r == "error" then false
    else true
  | _, _ => !(l.any (fun m => m.message_type == "error"))

/-- The amended success rule: identical except that the error indication
(`is_error or subtype == "error"`) takes precedence over
`subtype == "success"`. -/
def claimedSuccessAmended (p : Provider) (l : List Msg) : Bool :=
  match p, l.find? (fun m => resultMarked m) with
  | .cursor, some r => !(msgOrigIsError r || msgOrigSubtype r == "error")
  | _, _ => !(l.any (fun m => m.message_type == "error"))

/-- Scenario S1 of the spec: Cursor stdout
`{"type":"system","model":"gpt-5"}`,
`{"type":"assistant","message":{"content":[{"type":"text","text":"ok"}]}}`,
`{"type":"result","session_id":"S1","duration_ms":12,"subtype":"success"}`. -/
def s1Lines : List CLine :=
  [.parsed { type := some "system", model := some "gpt-5" },
   .parsed { type := some "assistant",
             message := some { content := [{ type := some "text", text := "ok" }] } },
   .parsed { type := some "result", session_id := some "S1", duration_ms := 12,
             subtype := some "success" }]

/-- A Cursor stdout line whose result event carries both
`subtype == "success"` and `is_error == true` (and a nonempty `result` text
so that the hidden result event is emitted). -/
def c1CexLines : List CLine :=
  [.parsed { type := some "result", session_id := some "X", result := some "done",
             subtype := some "success", is_error := true }]

/-- A Codex stdout line whose `msg.type` is `session_configured`. -/
def isSessionConfigured : CodexLine → Bool
  | .parsed e => e.msgType == some "session_configured"
  | _ => false

/-- Codex stdout for claim C10's counterexample: one hundred well-formed
JSON lines of another message type, then `session_configured`. -/
def c10Lines : List CodexLine :=
  List.replicate 100 (CodexLine.parsed { msgType := some "agent_message" }) ++
    [CodexLine.parsed { msgType := some "session_configured", session_id := some "C1" }]

/-! ## Manager fold lemmas -/

theorem managerStep_count (acc : ManagerAcc) (m : Msg) :
    (managerStep acc m).count = acc.count + 1 := by
  cases hm : m.metadata_json <;> simp only [managerStep, hm] <;> split_ifs <;> rfl

theorem managerStep_hasError (acc : ManagerAcc) (m : Msg) :
    (managerStep acc m).hasError = (acc.hasError || msgErrorish m) := by
  cases hm : m.metadata_json <;>
    simp only [managerStep, msgErrorish, resultMarked, msgErrInd, hm] <;>
    split_ifs <;> simp_all

set_option maxHeartbeats 1000000 in
theorem managerStep_resultSuccess_marked (acc : ManagerAcc) (m : Msg)
    (h : resultMarked m = true) :
    (managerStep acc m).resultSuccess = some (!msgErrInd m) := by
  cases hm : m.metadata_json with
  | none =>
    simp only [resultMarked, hm] at h
    exact (Bool.false_ne_true h).elim
  | some md =>
    simp only [resultMarked, hm] at h
    by_cases hie : md.origIsError = true <;>
      by_cases hse : md.origSubtype = "error" <;>
      by_cases hss : md.origSubtype = "success" <;>
      simp only [managerStep, msgErrInd, hm, hie, hse, hss] <;>
      split_ifs <;> simp_all

theorem managerStep_resultSuccess_unmarked (acc : ManagerAcc) (m : Msg)
    (h : resultMarked m = false) :
    (managerStep acc m).resultSuccess = acc.resultSuccess := by
  cases hm : m.metadata_json <;>
    simp only [resultMarked, hm] at h <;>
    simp only [managerStep, hm] <;>
    split_ifs <;> simp_all

theorem foldl_managerStep_hasError (l : List Msg) (acc : ManagerAcc) :
    (l.foldl managerStep acc).hasError = (acc.hasError || l.any msgErrorish) := by
  induction l generalizing acc with
  | nil => simp
  | cons m t ih =>
    simp only [List.foldl_cons, List.any_cons]
    rw [ih, managerStep_hasError, Bool.or_assoc]

theorem foldl_managerStep_count (l : List Msg) (acc : ManagerAcc) :
    (l.foldl managerStep acc).count = acc.count + l.length := by
  induction l generalizing acc with
  | nil => simp
  | cons m t ih =>
    simp only [List.foldl_cons, List.length_cons]
    rw [ih, managerStep_count]
    omega

theorem foldl_managerStep_resultSuccess_none (l : List Msg) (acc : ManagerAcc)
    (h : ∀ m ∈ l, resultMarked m = false) :
    (l.foldl managerStep acc).resultSuccess = acc.resultSuccess := by
  induction l generalizing acc with
  | nil => simp
  | cons m t ih =>
    simp only [List.foldl_cons]
    rw [ih _ (fun x hx => h x (List.mem_cons_of_mem m hx)),
      managerStep_resultSuccess_unmarked _ _ (h m (List.mem_cons_self m t))]

theorem foldl_managerStep_resultSuccess (l : List Msg) (acc : ManagerAcc)
    (h : l.countP (fun m => resultMarked m) ≤ 1) :
    (l.foldl managerStep acc).resultSuccess =
      match l.find? (fun m => resultMarked m) with
      | some r => some (!msgErrInd r)
      | none => acc.resultSuccess := by
  induction l generalizing acc with
  | nil => simp
  | cons m t ih =>
    by_cases hm : resultMarked m = true
    · have hc := h
      rw [List.countP_cons] at hc
      simp only [hm, if_pos] at hc
      have htz : t.countP (fun m => resultMarked m) = 0 := by omega
      have htnone : ∀ x ∈ t, resultMarked x = false := by
        intro x hx
        have := List.countP_eq_zero.mp htz x hx
        simpa using this
      simp only [List.foldl_cons, List.find?_cons, hm]
      rw [foldl_managerStep_resultSuccess_none t _ htnone,
        managerStep_resultSuccess_marked _ _ hm]
    · have hm' : resultMarked m = false := by simpa using hm
      have hc := h
      rw [List.countP_cons] at hc
      simp only [hm'] at hc
      have ht : t.countP (fun m => resultMarked m) ≤ 1 := by omega
      simp only [List.foldl_cons, List.find?_cons, hm']
      rw [ih _ ht, managerStep_resultSuccess_unmarked _ _ hm']

theorem any_errorish_of_unmarked (l : List Msg)
    (h : ∀ m ∈ l, resultMarked m = false) :
    l.any msgErrorish = l.any (fun m => m.message_type == "error") := by
  induction l with
  | nil => simp
  | cons m t ih =>
    simp only [List.any_cons]
    rw [ih (fun x hx => h x (List.mem_cons_of_mem m hx))]
    unfold msgErrorish
    rw [h m (List.mem_cons_self m t)]
    simp

theorem msgErrInd_eq (m : Msg) :
    msgErrInd m = (msgOrigIsError m || msgOrigSubtype m == "error") := by
  unfold msgErrInd msgOrigIsError msgOrigSubtype
  cases m.metadata_json <;> simp

theorem managerSuccess_eq_not_hasError (p : Provider) (l : List Msg)
    (hp : p ≠ Provider.cursor) :
    managerSuccess p l = !(managerFold l).hasError := by
  unfold managerSuccess
  cases p <;> first
    | exact absurd rfl hp
    | cases (managerFold l).resultSuccess <;> rfl

/-! ## Claim theorems -/

/-- C1 (amended): the final success flag of a managed turn.  If the
provider is Cursor and a result event was seen, success is determined by
that result's original event, with the error indication (`is_error` or
`subtype == "error"`) taking precedence: success is false exactly when it
holds (even if `subtype == "success"`), true otherwise.  For every other
provider, and for Cursor without a result event, success holds iff no
`kind=error` event was emitted.  Hypotheses delimit the streams the
adapters can produce: non-Cursor adapters never attach result-marked
metadata, and a Cursor stream carries at most one result event. -/
theorem claim1_success_rule (p : Provider) (l : List Msg)
    (h1 : p ≠ Provider.cursor → ∀ m ∈ l, resultMarked m = false)
    (h2 : p = Provider.cursor → l.countP (fun m => resultMarked m) ≤ 1) :
    managerSuccess p l = claimedSuccessAmended p l := by
  by_cases hp : p = Provider.cursor
  · subst hp
    have hc := h2 rfl
    unfold managerSuccess claimedSuccessAmended managerFold
    dsimp only
    rw [foldl_managerStep_resultSuccess l {} hc]
    cases hf : l.find? (fun m => resultMarked m) with
    | some r =>
      simp only [msgErrInd_eq]
    | none =>
      have hnone : ∀ m ∈ l, resultMarked m = false := by
        intro x hx
        have := List.find?_eq_none.mp hf x hx
        simpa using this
      rw [foldl_managerStep_hasError, any_errorish_of_unmarked l hnone]
      rfl
  · have hl := h1 hp
    rw [managerSuccess_eq_not_hasError p l hp]
    unfold managerFold
    rw [foldl_managerStep_hasError, any_errorish_of_unmarked l hl]
    unfold claimedSuccessAmended
    cases hf : l.find? (fun m => resultMarked m) with
    | some r =>
      have := List.find?_some hf
      rw [hl r (List.mem_of_find?_eq_some hf)] at this
      cases this
    | none =>
      cases p <;> simp at hp ⊢

/-- Witness for C1: a Qwen turn with an empty stream; both hypotheses are
discharged at this input and both sides evaluate to `true`. -/
theorem claim1_success_rule_witness :
    managerSuccess Provider.qwen [] = claimedSuccessAmended Provider.qwen [] ∧
    managerSuccess Provider.qwen [] = true :=
  ⟨claim1_success_rule Provider.qwen []
      (fun _ m hm => absurd hm (List.not_mem_nil m))
      (fun _ => by decide),
    by decide⟩

/-- Counterexample for C1 as stated: a Cursor turn whose single wire event
is a result with `subtype == "success"` **and** `is_error == true` (with
nonempty result text, so the hidden result event is emitted).  The claim's
rule, read in the order stated (`subtype == "success"` first), yields
success; the manager checks the error indication first and records
failure. -/
theorem claim1_counterexample :
    managerSuccess Provider.cursor (cursorTurn none none c1CexLines).1 = false ∧
    claimedSuccessOrig Provider.cursor (cursorTurn none none c1CexLines).1 = true := by
  exact ⟨by decide, by decide⟩

/-- C2: every streamed event is persisted through the store; an event whose
metadata carries `hidden_from_ui = true` is never forwarded to the
broadcaster, and an event without it is forwarded. -/
theorem claim2_hidden_events (stream : List Msg) (m : Msg) (hm : m ∈ stream) :
    m ∈ managerPersisted stream ∧
    (msgHidden m = true → m ∉ managerBroadcast stream) ∧
    (msgHidden m = false → m ∈ managerBroadcast stream) := by
  refine ⟨hm, ?_, ?_⟩
  · intro h hmem
    rw [managerBroadcast, List.mem_filter] at hmem
    rw [h] at hmem
    simp at hmem
  · intro h
    rw [managerBroadcast, List.mem_filter]
    exact ⟨hm, by rw [h]; rfl⟩

/-- Witness for C2: a visible chat event in a stream that also contains a
hidden result event. -/
theorem claim2_hidden_events_witness :
    (qwenChatMsg none "hi") ∈ managerPersisted [qwenResultMsg none, qwenChatMsg none "hi"] ∧
    (msgHidden (qwenChatMsg none "hi") = true →
      (qwenChatMsg none "hi") ∉ managerBroadcast [qwenResultMsg none, qwenChatMsg none "hi"]) ∧
    (msgHidden (qwenChatMsg none "hi") = false →
      (qwenChatMsg none "hi") ∈ managerBroadcast [qwenResultMsg none, qwenChatMsg none "hi"]) :=
  claim2_hidden_events _ _ (by decide)

/-! ## Qwen stream structure lemmas -/

theorem qwenUpd_msgs (sid : Option String) (u : Update) (b : Buffers) :
    ∀ m ∈ (qwenUpd sid u b).1,
      (m.message_type = "chat" ∨ m.message_type = "tool_use") ∧ resultMarked m = false := by
  cases u with
  | messageChunk t => simp [qwenUpd]
  | thoughtChunk t => simp [qwenUpd]
  | toolCallUpdate u => simp [qwenUpd]
  | toolCall u =>
    intro m hm
    simp only [qwenUpd] at hm
    split_ifs at hm with h1 h2
    · simp at hm
    · simp only [List.mem_append, List.mem_singleton, List.not_mem_nil, false_or] at hm
      subst hm
      exact ⟨Or.inr rfl, rfl⟩
    · simp only [List.mem_append, List.mem_singleton, List.mem_cons, List.not_mem_nil,
        or_false] at hm
      rcases hm with hm | hm <;> subst hm
      · exact ⟨Or.inl rfl, rfl⟩
      · exact ⟨Or.inr rfl, rfl⟩
  | plan entries =>
    intro m hm
    simp only [qwenUpd] at hm
    split_ifs at hm with h1
    · simp only [List.mem_append, List.mem_singleton, List.not_mem_nil, false_or] at hm
      subst hm
      exact ⟨Or.inl rfl, rfl⟩
    · simp only [List.mem_append, List.mem_singleton, List.mem_cons, List.not_mem_nil,
        or_false] at hm
      rcases hm with hm | hm <;> subst hm
      · exact ⟨Or.inl rfl, rfl⟩
      · exact ⟨Or.inl rfl, rfl⟩
  | other => simp [qwenUpd]

theorem processUpdates_qwen_msgs (sid : Option String) (us : List Update) (b : Buffers) :
    ∀ m ∈ (processUpdates (qwenUpd sid) us b).1,
      (m.message_type = "chat" ∨ m.message_type = "tool_use") ∧ resultMarked m = false := by
  induction us generalizing b with
  | nil => simp [processUpdates]
  | cons u rest ih =>
    intro m hm
    simp only [processUpdates, List.mem_append] at hm
    rcases hm with h | h
    · exact qwenUpd_msgs sid u b m h
    · exact ih _ m h

theorem qwenLoop_msgs (sid : Option String) (run : ACPRun) (b : Buffers) :
    ∀ m ∈ (qwenLoop sid run b).msgs,
      (m.message_type = "chat" ∨ m.message_type = "tool_use" ∨ m.message_type = "error") ∧
      resultMarked m = false := by
  induction run generalizing b with
  | final us t =>
    intro m hm
    cases t with
    | ok =>
      simp only [qwenLoop] at hm
      rcases processUpdates_qwen_msgs sid us b m hm with ⟨hk, hr⟩
      exact ⟨by tauto, hr⟩
    | errOther s =>
      simp only [qwenLoop, List.mem_append, List.mem_singleton] at hm
      rcases hm with h | h
      · rcases processUpdates_qwen_msgs sid us b m h with ⟨hk, hr⟩
        exact ⟨by tauto, hr⟩
      · subst h
        exact ⟨Or.inr (Or.inr rfl), rfl⟩
    | snfNoSession =>
      simp only [qwenLoop] at hm
      rcases processUpdates_qwen_msgs sid us b m hm with ⟨hk, hr⟩
      exact ⟨by tauto, hr⟩
    | snfRaise s =>
      simp only [qwenLoop, List.mem_append, List.mem_singleton] at hm
      rcases hm with h | h
      · rcases processUpdates_qwen_msgs sid us b m h with ⟨hk, hr⟩
        exact ⟨by tauto, hr⟩
      · subst h
        exact ⟨Or.inr (Or.inr rfl), rfl⟩
  | retry us newId next ih =>
    intro m hm
    simp only [qwenLoop, List.mem_append] at hm
    rcases hm with h | h
    · rcases processUpdates_qwen_msgs sid us b m h with ⟨hk, hr⟩
      exact ⟨by tauto, hr⟩
    · exact ih _ m h

theorem qwenTurn_msgs (sid : Option String) (run : ACPRun) :
    ∀ m ∈ (qwenTurn sid run).1,
      (m.message_type = "chat" ∨ m.message_type = "tool_use" ∨ m.message_type = "error" ∨
        m.message_type = "result") ∧ resultMarked m = false := by
  intro m hm
  simp only [qwenTurn, List.mem_append, List.mem_singleton] at hm
  rcases hm with (h | h) | h
  · rcases qwenLoop_msgs sid run {} m h with ⟨hk, hr⟩
    exact ⟨by tauto, hr⟩
  · split_ifs at h
    · simp at h
    · simp only [List.mem_singleton] at h
      subst h
      exact ⟨Or.inl rfl, rfl⟩
  · subst h
    exact ⟨Or.inr (Or.inr (Or.inr rfl)), rfl⟩

/-- C3 (amended, ACP adapters): every stream of the Qwen ACP turn is
nonempty, its last event is terminal (`kind=result`, or `kind=error` when
session setup fails before the prompt), and at most one `kind=result` event
occurs; `kind=error` events may precede the final result, so the terminal
event need not be unique. -/
theorem claim3_acp_terminal (sid : Option String) (setup : QSetup) :
    (qwenTurnFull sid setup).1 ≠ [] ∧
    (∀ m, ((qwenTurnFull sid setup).1).getLast? = some m →
      m.message_type = "result" ∨ m.message_type = "error") ∧
    (qwenTurnFull sid setup).1.countP (fun m => m.message_type == "result") ≤ 1 := by
  cases setup with
  | setupFail s =>
    refine ⟨by simp [qwenTurnFull], ?_, ?_⟩
    · intro m hm
      simp only [qwenTurnFull, List.getLast?_singleton, Option.some.injEq] at hm
      subst hm
      exact Or.inr rfl
    · simp [qwenTurnFull, qwenErrorMsg, List.countP_cons]
  | sessionReady run =>
    refine ⟨by simp [qwenTurnFull, qwenTurn], ?_, ?_⟩
    · intro m hm
      simp only [qwenTurnFull, qwenTurn] at hm
      rw [List.getLast?_concat, Option.some.injEq] at hm
      subst hm
      exact Or.inl rfl
    · simp only [qwenTurnFull, qwenTurn]
      rw [List.countP_append, List.countP_append]
      have h1 : (qwenLoop sid run {}).msgs.countP (fun m => m.message_type == "result") = 0 := by
        rw [List.countP_eq_zero]
        intro m hm
        rcases qwenLoop_msgs sid run {} m hm with ⟨hk, _⟩
        rcases hk with h | h | h <;> rw [h] <;> decide
      have h2 : (if (qwenLoop sid run {}).bufs.th.isEmpty && (qwenLoop sid run {}).bufs.tx.isEmpty
          then ([] : List Msg)
          else [qwenChatMsg sid (qwenCompose (qwenLoop sid run {}).bufs.th (qwenLoop sid run {}).bufs.tx)]).countP
            (fun m => m.message_type == "result") = 0 := by
        split_ifs <;> simp [qwenChatMsg]
      rw [h1, h2]
      simp [qwenResultMsg]

/-- Counterexample for C3 as stated: the Cursor adapter's stream for the
spec's own happy-path scenario S1 is nonempty yet contains no terminal
event at all — the wire `result` line maps to `kind=system` (and only when
its `result` text is nonempty), never to `kind=result`. -/
theorem claim3_counterexample :
    (cursorTurn none none s1Lines).1 ≠ [] ∧
    (cursorTurn none none s1Lines).1.countP
      (fun m => m.message_type == "result" || m.message_type == "error") = 0 := by
  exact ⟨by decide, by decide⟩

/-- C5 (amended): after a `session/prompt` failure matching "Session not
found", the adapter silently creates a new session and retries; a turn
whose first prompt fails this way and whose retried prompt succeeds yields
no `kind=error` event, a successful outcome, and exactly one recovery
`set_session_id` (the retry is unbounded in general, not limited to one —
see the counterexample). -/
theorem claim5_silent_retry (sid : Option String) (u1 u2 : List Update) (newId : String) :
    (∀ m ∈ (qwenTurn sid (ACPRun.retry u1 newId (ACPRun.final u2 ACPTerm.ok))).1,
      m.message_type ≠ "error") ∧
    managerSuccess Provider.qwen
      (qwenTurn sid (ACPRun.retry u1 newId (ACPRun.final u2 ACPTerm.ok))).1 = true ∧
    (qwenTurn sid (ACPRun.retry u1 newId (ACPRun.final u2 ACPTerm.ok))).2 = [newId] := by
  have hmem : ∀ m ∈ (qwenTurn sid (ACPRun.retry u1 newId (ACPRun.final u2 ACPTerm.ok))).1,
      (m.message_type = "chat" ∨ m.message_type = "tool_use" ∨ m.message_type = "result") ∧
      resultMarked m = false := by
    intro m hm
    simp only [qwenTurn, qwenLoop, List.mem_append, List.mem_singleton] at hm
    rcases hm with ((h | h) | h) | h
    · rcases processUpdates_qwen_msgs sid u1 {} m h with ⟨hk, hr⟩
      exact ⟨by tauto, hr⟩
    · rcases processUpdates_qwen_msgs sid u2 _ m h with ⟨hk, hr⟩
      exact ⟨by tauto, hr⟩
    · split_ifs at h
      · simp at h
      · simp only [List.mem_singleton] at h
        subst h
        exact ⟨Or.inl rfl, rfl⟩
    · subst h
      exact ⟨Or.inr (Or.inr rfl), rfl⟩
  refine ⟨?_, ?_, ?_⟩
  · intro m hm
    rcases hmem m hm with ⟨hk, _⟩
    rcases hk with h | h | h <;> rw [h] <;> decide
  · rw [managerSuccess_eq_not_hasError _ _ (by intro h; cases h)]
    unfold managerFold
    rw [foldl_managerStep_hasError]
    have hany : (qwenTurn sid (ACPRun.retry u1 newId (ACPRun.final u2 ACPTerm.ok))).1.any
        msgErrorish = false := by
      rw [List.any_eq_false]
      intro m hm
      rcases hmem m hm with ⟨hk, hr⟩
      unfold msgErrorish
      rw [hr]
      rcases hk with h | h | h <;> rw [h] <;> simp
    rw [hany]
    rfl
  · rfl

/-- Counterexample for C5's "no more than one retry": a turn in which the
first two prompts both fail with "Session not found" and the third
succeeds.  The adapter silently performs two `session/new` recoveries
(storing both fresh session ids) and still completes with no error event —
the retry is not limited to one per turn. -/
theorem claim5_counterexample :
    (qwenTurn none (ACPRun.retry [] "s1" (ACPRun.retry [] "s2"
        (ACPRun.final [] ACPTerm.ok)))).2 = ["s1", "s2"] ∧
    ∀ m ∈ (qwenTurn none (ACPRun.retry [] "s1" (ACPRun.retry [] "s2"
        (ACPRun.final [] ACPTerm.ok)))).1, m.message_type ≠ "error" := by
  exact ⟨by decide, by decide⟩

/-- C6 (amended): on the first `agent_message_chunk` after one or more
thought chunks, the Gemini adapter flushes the thought buffer immediately
as a visible chat event wrapping the stripped thoughts in
`<thinking>…</thinking>`; the Qwen adapter does not — it appends the chunk
to its text buffer and keeps both buffers for a later flush. -/
theorem claim6_thought_flush (sid : Option String) (ts : List String) (t : String)
    (h1 : ts ≠ []) (h2 : pyStrip (String.join ts) ≠ "") :
    geminiUpd sid (Update.messageChunk t) { th := ts, tx := [] } =
      ([geminiThinkingMsg sid ("<thinking>\n" ++ pyStrip (String.join ts) ++ "\n</thinking>\n")],
        { th := [], tx := [t] }) ∧
    qwenUpd sid (Update.messageChunk t) { th := ts, tx := [] } =
      ([], { th := ts, tx := [t] }) := by
  constructor
  · have hne : ts.isEmpty = false := by
      cases ts with
      | nil => exact absurd rfl h1
      | cons a l => rfl
    simp only [String.join] at h2
    simp [geminiUpd, geminiCompose, hne, h2, String.join, String.empty_append]
  · simp [qwenUpd]

/-- Witness for C6 (amended), at spec scenario S4's shape: a single thought
chunk followed by a message chunk. -/
theorem claim6_thought_flush_witness :
    (["think"] ≠ ([] : List String)) ∧ (pyStrip (String.join ["think"]) ≠ "") ∧
    (geminiUpd none (Update.messageChunk "hello") { th := ["think"], tx := [] } =
      ([geminiThinkingMsg none ("<thinking>\n" ++ pyStrip (String.join ["think"]) ++ "\n</thinking>\n")],
        { th := [], tx := ["hello"] }) ∧
    qwenUpd none (Update.messageChunk "hello") { th := ["think"], tx := [] } =
      ([], { th := ["think"], tx := ["hello"] })) :=
  ⟨by decide, by decide, claim6_thought_flush none ["think"] "hello" (by decide) (by decide)⟩

/-- Counterexample for C6 as stated ("Qwen and Gemini alike"): a Qwen turn
receiving a thought chunk then a message chunk emits no event at the
message chunk; the single chat event of the turn is the end-of-turn flush,
whose content joins thoughts and text with a blank line and contains no
`<thinking>` wrapping. -/
theorem claim6_counterexample :
    (qwenTurn none (ACPRun.final [Update.thoughtChunk "I will think",
        Update.messageChunk "hello"] ACPTerm.ok)).1 =
      [qwenChatMsg none "I will think\n\nhello", qwenResultMsg none] ∧
    ("<thinking>".data.isPrefixOf "I will think\n\nhello".data) = false := by
  exact ⟨by decide, by decide⟩

theorem lookup_upsert_ne (k sk v : String) (h : k ≠ sk) (m : List (String × String)) :
    (upsert sk v m).lookup k = m.lookup k := by
  have hks : (k == sk) = false := beq_eq_false_iff_ne.mpr h
  induction m with
  | nil => simp [upsert, List.lookup, hks]
  | cons kv rest ih =>
    cases kv with
    | mk k' v' =>
      simp only [upsert]
      split_ifs with he
      · subst he
        simp [List.lookup, hks]
      · simp only [List.lookup]
        cases hk : k == k' <;> simp [ih]

theorem blobGet_upsert (gk sk id : String) (h1 : gk ≠ sk) (h2 : gk ≠ "cursor")
    (col : Option Col) (mem : Option String) :
    blobGet gk (some (Col.blob (upsert sk id (colData col)))) mem = blobGet gk col mem := by
  have hbc : (gk == "cursor") = false := beq_eq_false_iff_ne.mpr h2
  have hbs : (gk == sk) = false := beq_eq_false_iff_ne.mpr h1
  cases col with
  | none =>
    simp [blobGet, colData, upsert, List.lookup, hbs]
  | some c =>
    cases c with
    | raw s =>
      simp only [blobGet, colData, lookup_upsert_ne gk sk id h1]
      split_ifs with hs
      · simp [List.lookup]
      · simp [List.lookup, hbc]
    | blob m =>
      simp only [blobGet, colData, lookup_upsert_ne gk sk id h1]

/-- C4 (amended): for the three providers that read-modify-write the JSON
blob (`qwen`, `gemini`, `codex`), a `set_session_id` for one provider never
changes what `get_session_id` returns for another, whatever the prior state
of the column.  (The property fails whenever Cursor is involved: a Cursor
write replaces the entire column and a Cursor read returns the raw column —
see the counterexample.) -/
theorem claim4_blob_preservation (st : SessState) (id : String) :
    qwenGetSession (codexSetSession id st) = qwenGetSession st ∧
    qwenGetSession (geminiSetSession id st) = qwenGetSession st ∧
    geminiGetSession (codexSetSession id st) = geminiGetSession st ∧
    geminiGetSession (qwenSetSession id st) = geminiGetSession st ∧
    codexGetSession (qwenSetSession id st) = codexGetSession st ∧
    codexGetSession (geminiSetSession id st) = codexGetSession st := by
  refine ⟨?_, ?_, ?_, ?_, ?_, ?_⟩ <;>
    exact blobGet_upsert _ _ _ (by decide) (by decide) st.col _

/-- Counterexample for C4 as stated: with the Cursor session `"A"` stored
(the raw column), a Qwen write of `"B"` turns the column into the JSON blob
`{"cursor": "A", "qwen": "B"}`; `GetSession(project, cursor)` then returns
that whole blob string instead of the previously stored handle `"A"`. -/
theorem claim4_counterexample :
    cursorGetSession (cursorSetSession "A" {}) = some "A" ∧
    cursorGetSession (qwenSetSession "B" (cursorSetSession "A" {})) ≠ some "A" ∧
    cursorGetSession (qwenSetSession "B" (cursorSetSession "A" {})) =
      some "\x7b\"cursor\": \"A\", \"qwen\": \"B\"\x7d" := by
  exact ⟨by decide, by decide, by decide⟩

/-- C7 (amended): on scenario S1 the Cursor adapter persists exactly two
events — the hidden system init and the aggregated chat `"ok"` — and no
result event at all, because the wire result line's `result` text is empty
and `_handle_cursor_stream_json` only emits a (hidden, `kind=system`)
result message when that text is nonempty.  The outcome is success with
`messages_count = 2`, and the stored session for the project is `"S1"`. -/
theorem claim7_s1_scenario :
    (cursorTurn none none s1Lines).1.map (fun m => (m.role, m.message_type, msgHidden m)) =
      [("system", "system", true), ("assistant", "chat", false)] ∧
    (cursorTurn none none s1Lines).1.map Msg.content =
      ["🔧 Cursor Agent initialized (Model: gpt-5)", "ok"] ∧
    (cursorTurn none none s1Lines).2 = ["S1"] ∧
    managerOutcome Provider.cursor (cursorTurn none none s1Lines).1 =
      { success := true, cli_used := "cursor", has_changes := false,
        messages_count := 2, error := none } := by
  exact ⟨by decide, by decide, by decide, by decide⟩

/-- Counterexample for C7 as stated: on scenario S1 the manager collects
two messages, not three, and no persisted event is result-marked (no hidden
result event exists). -/
theorem claim7_counterexample :
    (managerOutcome Provider.cursor (cursorTurn none none s1Lines).1).messages_count ≠ 3 ∧
    (∀ m ∈ (cursorTurn none none s1Lines).1, resultMarked m = false) := by
  exact ⟨by decide, by decide⟩

theorem lookup_mem_snd {l : List (String × String)} {k v : String}
    (h : l.lookup k = some v) : v ∈ l.map Prod.snd := by
  induction l with
  | nil => simp [List.lookup] at h
  | cons kv rest ih =>
    cases kv with
    | mk k' v' =>
      simp only [List.lookup] at h
      cases hk : k == k' with
      | true =>
        simp only [hk, Option.some.injEq] at h
        subst h
        simp
      | false =>
        simp only [hk] at h
        simp only [List.map_cons, List.mem_cons]
        exact Or.inr (ih h)

/-- C8 (amended): tool-name normalization is idempotent on every input with
no leading or trailing whitespace (`x.strip() == x`); this covers all raw
provider names of the mapping table, all canonical names, and all stripped
unknown names.  On inputs with surrounding whitespace it can fail — see the
counterexample. -/
theorem claim8_idempotent_stripped (x : String) (h : pyStrip x = x) :
    normalizeToolName (normalizeToolName x) = normalizeToolName x := by
  have hcan : ∀ v ∈ toolMapping.map Prod.snd, normalizeToolName v = v := by decide
  cases hx : toolMapping.lookup x with
  | some v =>
    have e : normalizeToolName x = v := by
      simp only [normalizeToolName, hx]
    rw [e]
    exact hcan v (lookup_mem_snd hx)
  | none =>
    cases hl : toolMapping.lookup (pyLower (removeSpaces (pyStrip x))) with
    | some v =>
      have e : normalizeToolName x = v := by
        simp only [normalizeToolName, hx, hl]
      rw [e]
      exact hcan v (lookup_mem_snd hl)
    | none =>
      have hl' := hl
      rw [h] at hl'
      have e : normalizeToolName x = x := by
        simp only [normalizeToolName, hx, h, hl']
      rw [e, e]

/-- Witness for C8 (amended) at the raw provider name `"read_file"`. -/
theorem claim8_idempotent_stripped_witness :
    pyStrip "read_file" = "read_file" ∧
    normalizeToolName (normalizeToolName "read_file") = normalizeToolName "read_file" :=
  ⟨by decide, claim8_idempotent_stripped "read_file" (by decide)⟩

/-- Counterexample for C8 as stated: `" semSearch"` (a leading space)
misses both dictionary probes — its space-stripped lowering `"semsearch"`
is not a key, `"semSearch"` is — so one application returns the stripped
string `"semSearch"`, and a second application maps it to `"SemSearch"`. -/
theorem claim8_counterexample :
    normalizeToolName (normalizeToolName " semSearch") ≠ normalizeToolName " semSearch" := by
  decide

/-- C9: a Cursor stdout line that fails JSON parsing yields exactly one
`kind=chat` event whose content is the (stripped) line and whose metadata
has `parse_error` set, prepended to the unchanged processing of the
remaining lines — the loop state (buffer, captured session id) is not
touched and the stream continues. -/
theorem claim9_parse_error (active sid : Option String) (raw : String)
    (rest : List CLine) (st : CursorSt) :
    cursorLoop active sid (CLine.malformed raw :: rest) st =
      (cursorParseErrorMsg sid raw :: (cursorLoop active sid rest st).1,
        (cursorLoop active sid rest st).2) ∧
    (cursorParseErrorMsg sid raw).message_type = "chat" ∧
    (cursorParseErrorMsg sid raw).content = raw ∧
    ((cursorParseErrorMsg sid raw).metadata_json.map Meta.parse_error) = some true := by
  exact ⟨rfl, rfl, rfl, rfl⟩

theorem codexInit_eq_none (lines : List CodexLine) (count : Nat)
    (h : ∀ l ∈ lines, isSessionConfigured l = false) :
    codexInit lines count = none := by
  induction lines generalizing count with
  | nil => simp [codexInit]
  | cons l rest ih =>
    unfold codexInit
    split_ifs with hc
    · rfl
    · have hrest : ∀ x ∈ rest, isSessionConfigured x = false :=
        fun x hx => h x (List.mem_cons_of_mem _ hx)
      cases l with
      | blank => exact ih (count + 1) hrest
      | malformed => exact ih (count + 1) hrest
      | parsed e =>
        have he := h (CodexLine.parsed e) (List.mem_cons_self _ _)
        simp only [isSessionConfigured, beq_eq_false_iff_ne, ne_eq] at he
        show (if e.msgType = some "session_configured" then some (e, rest)
          else codexInit rest count) = none
        rw [if_neg he]
        exact ih count hrest

/-- C10 (amended): when the Codex init loop gives up — at EOF, or after one
hundred blank or unparseable stdout lines, with well-formed JSON lines of
other types not counting toward the budget — the adapter returns before
yielding anything: the stream is empty, and the manager reports the turn
as `success = true` with `messages_count = 0`. -/
theorem claim10_init_give_up (sid : Option String) (cliModel reqId : String)
    (lines : List CodexLine) (h : ∀ l ∈ lines, isSessionConfigured l = false) :
    (codexTurn sid cliModel reqId lines).1 = [] ∧
    managerOutcome Provider.codex (codexTurn sid cliModel reqId lines).1 =
      { success := true, cli_used := "codex", has_changes := false,
        messages_count := 0, error := none } := by
  have hi := codexInit_eq_none lines 0 h
  have hs : (codexTurn sid cliModel reqId lines).1 = [] := by
    simp [codexTurn, hi]
  refine ⟨hs, ?_⟩
  rw [hs]
  decide

/-- Witness for C10 (amended): a single unparseable line. -/
theorem claim10_init_give_up_witness :
    (∀ l ∈ [CodexLine.malformed], isSessionConfigured l = false) ∧
    ((codexTurn none "gpt-5" "msg_1" [CodexLine.malformed]).1 = [] ∧
      managerOutcome Provider.codex (codexTurn none "gpt-5" "msg_1" [CodexLine.malformed]).1 =
        { success := true, cli_used := "codex", has_changes := false,
          messages_count := 0, error := none }) :=
  ⟨by decide, claim10_init_give_up none "gpt-5" "msg_1" [CodexLine.malformed] (by decide)⟩

/-- Counterexample for C10 as stated: one hundred well-formed JSON lines of
another message type followed by `session_configured`.  No
`session_configured` appears within the first hundred stdout lines, yet the
loop (whose counter only advances on blank or unparseable lines) still
finds it and the adapter yields its hidden init event: the stream is not
empty and the turn has `messages_count = 1`, not `0`. -/
theorem claim10_counterexample :
    (∀ l ∈ c10Lines.take 100, isSessionConfigured l = false) ∧
    (codexTurn none "gpt-5" "msg_1" c10Lines).1 ≠ [] ∧
    (managerOutcome Provider.codex (codexTurn none "gpt-5" "msg_1" c10Lines).1).messages_count = 1 := by
  exact ⟨by decide, by decide, by decide⟩

end Claudable
